import Mathlib

/-!
Shallow embedding of the `veesr_programs` Solana/Anchor crowdfunding program
(`programs/veesr-programs/src/lib.rs`).

Modelling conventions:
* `u64` values are `Nat` together with explicit `checked_*` operations that
  return `none` exactly when the Rust `checked_*` call would (`U64_MAX` bound);
  a `checked_*(..).unwrap()` panic aborts the whole transaction and is modelled
  as the failure value `Fault.arithmeticPanic`.
* `i64` timestamps are `Int`.
* `Pubkey`s are `Nat`.
* Rust `String::len` is modelled by `String.length` (the byte/char distinction
  for non-ASCII text is outside the scope of this development).
* Fallible handlers return `Except Fault α`; Anchor account-constraint
  failures (a missing account, an `init` collision at an already-used PDA,
  a `has_one` mismatch) are modelled as `Fault.accountError`.
* The Anchor `close = <target>` constraint closes the constrained account
  unconditionally when the instruction succeeds; instruction-level functions
  below reflect this by dropping the closed account from the resulting state.
-/

deriving instance DecidableEq for Except

namespace Veesr

/-- Largest value of a Rust `u64`. -/
def U64_MAX : Nat := 18446744073709551615

/-- Rust `u64::checked_add`. -/
def checked_add (a b : Nat) : Option Nat :=
  if a + b ≤ U64_MAX then some (a + b) else none

/-- Rust `u64::checked_mul`. -/
def checked_mul (a b : Nat) : Option Nat :=
  if a * b ≤ U64_MAX then some (a * b) else none

/-- Rust `u64::checked_div`. -/
def checked_div (a b : Nat) : Option Nat :=
  if b = 0 then none else some (a / b)

/-- Rust `u64::checked_sub`. -/
def checked_sub (a b : Nat) : Option Nat :=
  if b ≤ a then some (a - b) else none

/-- `PLATFORM_FEE_BPS`: 300 basis points = 3%. -/
def PLATFORM_FEE_BPS : Nat := 300

/-- `BPS_DIVISOR`. -/
def BPS_DIVISOR : Nat := 10000

/-- `CampaignStatus` enum. -/
inductive CampaignStatus
  | Active
  | Funded
  | InProgress
  | Completed
  | Expired
  | Cancelled
deriving DecidableEq, Repr

/-- `CampaignCategory` enum. -/
inductive CampaignCategory
  | Health
  | Water
  | Education
  | Energy
  | Infrastructure
  | Emergency
  | Other
deriving DecidableEq, Repr

/-- The `Campaign` account. -/
structure Campaign where
  authority : Nat
  target_amount : Nat
  current_amount : Nat
  deadline : Int
  created_at : Int
  status : CampaignStatus
  category : CampaignCategory
  title : String
  description : String
  location : String
  metrics : List String
  media_uris : List String
deriving DecidableEq, Repr

/-- The `DonationReceipt` account. -/
structure DonationReceipt where
  donor : Nat
  campaign : Nat
  amount : Nat
  timestamp : Int
deriving DecidableEq, Repr

/-- The `VeesrError` error codes. -/
inductive VeesrError
  | InvalidTitle
  | InvalidDescription
  | InvalidTargetAmount
  | InvalidDonationAmount
  | CampaignNotActive
  | CampaignExpired
  | CampaignNotFunded
  | CannotCancelCampaign
  | CampaignNotCancelled
  | InvalidRefundRequest
  | InvalidPlatformWallet
deriving DecidableEq, Repr

/-- How an instruction can fail: a program error raised by a `require!`,
an aborted transaction caused by a `checked_*(..).unwrap()` panic, or an
Anchor account-constraint failure (account missing or not initialized,
`init` at an already-existing PDA, `has_one` mismatch). -/
inductive Fault
  | progError (e : VeesrError)
  | arithmeticPanic
  | accountError
deriving DecidableEq, Repr

/-- Thirty days in seconds, the hard-coded campaign duration:
`30 * 24 * 60 * 60`. -/
def SECONDS_30_DAYS : Int := 30 * 24 * 60 * 60

/-- Handler `create_campaign`: validates the inputs and builds the new
campaign account, exactly in the order of the three `require!` checks of
the source. -/
def create_campaign (authority : Nat) (title description : String)
    (target_amount : Nat) (location : String)
    (metrics media_uris : List String) (category : CampaignCategory)
    (now : Int) : Except Fault Campaign :=
  if ¬ target_amount > 0 then .error (.progError .InvalidTargetAmount)
  else if ¬ (0 < title.length ∧ title.length ≤ 50) then
    .error (.progError .InvalidTitle)
  else if ¬ (0 < description.length ∧ description.length ≤ 500) then
    .error (.progError .InvalidDescription)
  else
    .ok { authority := authority
          title := title
          description := description
          target_amount := target_amount
          current_amount := 0
          location := location
          metrics := metrics
          media_uris := media_uris
          created_at := now
          deadline := now + SECONDS_30_DAYS
          status := .Active
          category := category }

/-- Handler `donate_to_campaign` acting on the campaign account: the three
`require!` checks, the overflow-checked addition to `current_amount`, and the
flip to `Funded` when the goal is reached.  The receipt creation and the
lamport transfer are handled at the state level (`stepE`). -/
def donate_to_campaign (c : Campaign) (now : Int) (amount : Nat) :
    Except Fault Campaign :=
  if ¬ amount > 0 then .error (.progError .InvalidDonationAmount)
  else if ¬ c.status = .Active then .error (.progError .CampaignNotActive)
  else if ¬ now < c.deadline then .error (.progError .CampaignExpired)
  else
    match checked_add c.current_amount amount with
    | none => .error .arithmeticPanic
    | some newAmount =>
      let c1 := { c with current_amount := newAmount }
      if newAmount ≥ c.target_amount then .ok { c1 with status := .Funded }
      else .ok c1

/-- One lamport transfer issued by an instruction. -/
inductive Transfer
  | toPlatform (amount : Nat)
  | toExecutor (amount : Nat)
  | toDonor (donor : Nat) (amount : Nat)
deriving DecidableEq, Repr

/-- The amount moved by a transfer. -/
def Transfer.amount : Transfer → Nat
  | .toPlatform a => a
  | .toExecutor a => a
  | .toDonor _ a => a

/-- Handler `withdraw_and_complete`: requires `Funded`, computes
`fee = current_amount * 300 / 10000` and the executor amount with checked
arithmetic, and issues the two transfer legs, each skipped when its amount
is zero.  Returns the list of transfers issued. -/
def withdraw_and_complete (c : Campaign) : Except Fault (List Transfer) :=
  if ¬ c.status = .Funded then .error (.progError .CampaignNotFunded)
  else
    let total_amount := c.current_amount
    match checked_mul total_amount PLATFORM_FEE_BPS with
    | none => .error .arithmeticPanic
    | some m =>
      match checked_div m BPS_DIVISOR with
      | none => .error .arithmeticPanic
      | some fee =>
        match checked_sub total_amount fee with
        | none => .error .arithmeticPanic
        | some amount_to_executor =>
          .ok ((if fee > 0 then [Transfer.toPlatform fee] else []) ++
               (if amount_to_executor > 0 then
                  [Transfer.toExecutor amount_to_executor] else []))

/-- The body of handler `cancel_campaign`: the cancellability check, the
early return when `current_amount == 0`, and the status write to
`Cancelled` otherwise.  Returns the campaign value as left by the handler
body alone (the account closure performed by the `close` constraint is in
`cancel_campaign` below). -/
def cancel_campaign_body (c : Campaign) (now : Int) : Except Fault Campaign :=
  let is_expired := now > c.deadline
  let can_be_cancelled :=
    c.status = .Active ∨ (is_expired ∧ c.status ≠ .Funded)
  if can_be_cancelled then
    if c.current_amount = 0 then .ok c
    else .ok { c with status := .Cancelled }
  else .error (.progError .CannotCancelCampaign)

/-- The cancellability predicate of `cancel_campaign`: still `Active`, or past
its deadline without having been successfully funded. -/
def canCancel (c : Campaign) (now : Int) : Prop :=
  c.status = .Active ∨ (now > c.deadline ∧ c.status ≠ .Funded)

instance (c : Campaign) (now : Int) : Decidable (canCancel c now) := by
  unfold canCancel; infer_instance

/-- The full `cancel_campaign` instruction.  The `CancelCampaign` accounts
struct carries an unconditional `close = authority` constraint, so whenever
the handler body succeeds Anchor closes the campaign account at instruction
exit, regardless of `current_amount`; the status written by the handler body
is discarded with the account.  `ok none` means the account was closed. -/
def cancel_campaign (c : Campaign) (now : Int) :
    Except Fault (Option Campaign) :=
  (cancel_campaign_body c now).map (fun _ => none)

/-- Handler `claim_refund` acting on the campaign and the loaded receipt:
the two `require!` checks and the underflow-checked subtraction.  Returns
the updated campaign and the amount transferred back to the donor
(`receipt.amount`); the receipt closure is handled at the state level. -/
def claim_refund (c : Campaign) (r : DonationReceipt) (donor : Nat) :
    Except Fault (Campaign × Nat) :=
  if ¬ c.status = .Cancelled then .error (.progError .CampaignNotCancelled)
  else if ¬ r.donor = donor then .error (.progError .InvalidRefundRequest)
  else
    let amount_to_refund := r.amount
    match checked_sub c.current_amount amount_to_refund with
    | none => .error .arithmeticPanic
    | some newAmount =>
      .ok ({ c with current_amount := newAmount }, amount_to_refund)

/-- The fixed address of the modelled authority. -/
def AUTHORITY : Nat := 0

/-- The campaign PDA derived from `["campaign", AUTHORITY]`.  Re-creating a
campaign after its account is closed yields the same address. -/
def CAMPAIGN_PDA : Nat := 1

/-- The persistent accounts: the campaign slot (`none` = account closed or
never created) and the live donation receipts. -/
structure ChainState where
  campaign : Option Campaign
  receipts : List DonationReceipt
deriving DecidableEq, Repr

/-- The five instructions of the program, with their literal arguments plus
the caller-supplied clock value. -/
inductive Op
  | create (title description : String) (target_amount : Nat)
      (location : String) (metrics media_uris : List String)
      (category : CampaignCategory) (now : Int)
  | donate (donor : Nat) (amount : Nat) (now : Int)
  | withdraw
  | cancel (now : Int)
  | refund (donor : Nat)
deriving DecidableEq, Repr

/-- Whether an operation is a `create_campaign` call. -/
def Op.isCreate : Op → Bool
  | .create .. => true
  | _ => false

/-- One instruction against the chain state.  Account constraints run first
(`init` collisions, missing accounts, `has_one` checks), then the handler;
`close` constraints remove the closed account from the resulting state. -/
def stepE (s : ChainState) : Op → Except Fault ChainState
  | .create t d tgt loc ms mus cat now =>
    match s.campaign with
    | some _ => .error .accountError
    | none =>
      (create_campaign AUTHORITY t d tgt loc ms mus cat now).map
        (fun c => { s with campaign := some c })
  | .donate donor amount now =>
    match s.campaign with
    | none => .error .accountError
    | some c =>
      if s.receipts.any (fun r => r.donor == donor) then .error .accountError
      else
        (donate_to_campaign c now amount).map (fun c1 =>
          { campaign := some c1
            receipts := { donor := donor, campaign := CAMPAIGN_PDA,
                          amount := amount, timestamp := now } :: s.receipts })
  | .withdraw =>
    match s.campaign with
    | none => .error .accountError
    | some c =>
      (withdraw_and_complete c).map (fun _ => { s with campaign := none })
  | .cancel now =>
    match s.campaign with
    | none => .error .accountError
    | some c =>
      (cancel_campaign c now).map (fun oc => { s with campaign := oc })
  | .refund donor =>
    match s.campaign with
    | none => .error .accountError
    | some c =>
      match s.receipts.find? (fun r => r.donor == donor) with
      | none => .error .accountError
      | some r =>
        if ¬ r.campaign = CAMPAIGN_PDA then .error .accountError
        else
          (claim_refund c r donor).map (fun p =>
            { campaign := some p.1
              receipts := s.receipts.eraseP (fun r => r.donor == donor) })

/-- Apply an instruction; a failed instruction rolls back, leaving the state
unchanged (host-enforced atomicity). -/
def applyOp (s : ChainState) (op : Op) : ChainState :=
  match stepE s op with
  | .ok s1 => s1
  | .error _ => s

/-- Run a sequence of instructions. -/
def run (s : ChainState) (ops : List Op) : ChainState :=
  ops.foldl applyOp s

/-- The empty chain: no campaign, no receipts. -/
def initialState : ChainState := { campaign := none, receipts := [] }

/-- The platform fee taken when withdrawing from a campaign holding `n`:
`n * PLATFORM_FEE_BPS / BPS_DIVISOR`. -/
def feeOf (n : Nat) : Nat := n * PLATFORM_FEE_BPS / BPS_DIVISOR

/-- The metadata fields of a campaign, set at creation. -/
def Campaign.metadata (c : Campaign) :
    String × String × String × List String × List String :=
  (c.title, c.description, c.location, c.metrics, c.media_uris)

/-- Sum of the amounts on the receipts of a list that reference the campaign
PDA. -/
def receiptSumList (l : List DonationReceipt) : Nat :=
  ((l.filter (fun r => r.campaign == CAMPAIGN_PDA)).map
    (fun r => r.amount)).sum

/-- Sum of the amounts on the live receipts referencing the campaign PDA. -/
def receiptSum (s : ChainState) : Nat :=
  receiptSumList s.receipts

/-- The donation-accounting invariant: if the campaign account exists, its
`current_amount` equals the sum of the live receipts referencing it. -/
def sumInvariant (s : ChainState) : Prop :=
  ∀ c, s.campaign = some c → c.current_amount = receiptSum s

/-- A sample Active campaign holding 200 donated lamports. -/
def sampleActive : Campaign :=
  { authority := AUTHORITY, target_amount := 1000, current_amount := 200,
    deadline := 2592000, created_at := 0, status := .Active,
    category := .Other, title := "t", description := "d", location := "",
    metrics := [], media_uris := [] }

/-- A sample Funded campaign holding 1000 lamports. -/
def sampleFunded : Campaign :=
  { sampleActive with status := .Funded, current_amount := 1000 }

/-- `sampleActive` right after the donation that completes its funding. -/
def sampleJustFunded : Campaign :=
  { sampleActive with current_amount := 1000, status := .Funded }

/-- `sampleActive` after cancellation (status as written by the handler). -/
def sampleCancelled : Campaign := { sampleActive with status := .Cancelled }

/-- Run a sequence of instructions, `none` if any of them fails. -/
def runE (s : ChainState) : List Op → Option ChainState
  | [] => some s
  | op :: t =>
    match stepE s op with
    | .ok s1 => runE s1 t
    | .error _ => none

/-- A sequence of four instructions that all succeed: create, donate to the
goal, withdraw (closing the campaign but leaving the receipt live), and
re-create a campaign at the same PDA. -/
def C2ops : List Op :=
  [ .create "t" "d" 100 "" [] [] .Other 0
  , .donate 7 100 5
  , .withdraw
  , .create "t" "d" 100 "" [] [] .Other 10 ]

/-- The campaign account re-created by the last instruction of `C2ops`. -/
def C2recreated : Campaign :=
  { authority := AUTHORITY, target_amount := 100, current_amount := 0,
    deadline := 10 + 2592000, created_at := 10, status := .Active,
    category := .Other, title := "t", description := "d", location := "",
    metrics := [], media_uris := [] }

/-- The chain state after `C2ops`. -/
def C2final : ChainState :=
  { campaign := some C2recreated,
    receipts := [{ donor := 7, campaign := CAMPAIGN_PDA, amount := 100,
                   timestamp := 5 }] }

/-- The chain state right after the witness creation for C2. -/
def C2wState : ChainState :=
  { campaign := some
      { authority := AUTHORITY, target_amount := 5, current_amount := 0,
        deadline := 2592000, created_at := 0, status := .Active,
        category := .Other, title := "t", description := "d",
        location := "", metrics := [], media_uris := [] },
    receipts := [] }

/-- The receipt of donor 7 used in the C4 witness. -/
def C4receipt : DonationReceipt :=
  { donor := 7, campaign := CAMPAIGN_PDA, amount := 200, timestamp := 0 }

/-- The chain state for the C4 witness: a cancelled campaign holding the
single donation of donor 7. -/
def C4wState : ChainState :=
  { campaign := some sampleCancelled, receipts := [C4receipt] }

/-- `sampleCancelled` after donor 7 is refunded in full. -/
def sampleRefunded : Campaign := { sampleCancelled with current_amount := 0 }

/-- The chain state after the C4 witness refund. -/
def C4wAfter : ChainState := { campaign := some sampleRefunded, receipts := [] }

/-- A 101-char location string. -/
def C9bigLoc : String := String.mk (List.replicate 101 'a')

/-- The campaign created by the first conjunct of the C9 witness. -/
def C9created : Campaign :=
  { authority := AUTHORITY, target_amount := 1, current_amount := 0,
    deadline := 2592000, created_at := 0, status := .Active,
    category := .Other, title := "t", description := "d", location := "loc",
    metrics := ["m"], media_uris := ["u"] }

/-! ## Helper lemmas and claim theorems -/

/-! ## Helper lemmas -/
theorem checked_add_of_le (a b : Nat) (h : a + b ≤ U64_MAX) :
    checked_add a b = some (a + b) := by simp [checked_add, h]

theorem checked_mul_of_le (a b : Nat) (h : a * b ≤ U64_MAX) :
    checked_mul a b = some (a * b) := by simp [checked_mul, h]

theorem checked_mul_of_gt (a b : Nat) (h : ¬ a * b ≤ U64_MAX) :
    checked_mul a b = none := by simp [checked_mul, h]

theorem checked_div_of_ne (a b : Nat) (h : b ≠ 0) :
    checked_div a b = some (a / b) := by simp [checked_div, h]

theorem checked_sub_of_le (a b : Nat) (h : b ≤ a) :
    checked_sub a b = some (a - b) := by simp [checked_sub, h]

/-- A successful `create_campaign` is exactly a call passing the three
`require!` checks, and it returns the fully determined new account. -/
theorem create_ok_iff (a : Nat) (t d : String) (tgt : Nat) (loc : String)
    (ms mus : List String) (cat : CampaignCategory) (now : Int) (c : Campaign) :
    create_campaign a t d tgt loc ms mus cat now = .ok c ↔
      (0 < tgt ∧ (0 < t.length ∧ t.length ≤ 50) ∧
       (0 < d.length ∧ d.length ≤ 500) ∧
       c = { authority := a, title := t, description := d, target_amount := tgt,
             current_amount := 0, location := loc, metrics := ms,
             media_uris := mus, created_at := now,
             deadline := now + SECONDS_30_DAYS, status := .Active,
             category := cat }) := by
  unfold create_campaign
  split_ifs with h1 h2 h3 <;> simp_all [eq_comm]

/-- A successful `donate_to_campaign` is exactly a call passing the three
`require!` checks with no overflow, and it returns the updated campaign. -/
theorem donate_ok_iff (c : Campaign) (now : Int) (a : Nat) (c1 : Campaign) :
    donate_to_campaign c now a = .ok c1 ↔
      (0 < a ∧ c.status = .Active ∧ now < c.deadline ∧
       c.current_amount + a ≤ U64_MAX ∧
       c1 = (if c.current_amount + a ≥ c.target_amount then
               { c with current_amount := c.current_amount + a,
                        status := .Funded }
             else { c with current_amount := c.current_amount + a })) := by
  unfold donate_to_campaign checked_add
  split_ifs with h1 h2 h3 h4 h5 <;> simp_all [eq_comm]
  rw [if_neg (by omega)]
  simp [eq_comm]

theorem fee_le_total (n : Nat) : n * PLATFORM_FEE_BPS / BPS_DIVISOR ≤ n := by
  unfold PLATFORM_FEE_BPS BPS_DIVISOR
  calc n * 300 / 10000 ≤ n * 10000 / 10000 :=
        Nat.div_le_div_right (Nat.mul_le_mul_left n (by norm_num))
    _ = n := Nat.mul_div_cancel n (by norm_num)

/-- A withdrawal from a `Funded` campaign whose fee multiplication does not
overflow succeeds and issues the two legs, each skipped when zero. -/
theorem withdraw_ok_spec (c : Campaign) (h1 : c.status = .Funded)
    (h2 : c.current_amount * PLATFORM_FEE_BPS ≤ U64_MAX) :
    withdraw_and_complete c =
      .ok ((if 0 < feeOf c.current_amount then
              [Transfer.toPlatform (feeOf c.current_amount)] else []) ++
           (if 0 < c.current_amount - feeOf c.current_amount then
              [Transfer.toExecutor (c.current_amount - feeOf c.current_amount)]
            else [])) := by
  have hle := fee_le_total c.current_amount
  unfold withdraw_and_complete
  rw [if_neg (by simp [h1])]
  show (match checked_mul c.current_amount PLATFORM_FEE_BPS with
    | none => Except.error Fault.arithmeticPanic
    | some m =>
      match checked_div m BPS_DIVISOR with
      | none => Except.error Fault.arithmeticPanic
      | some fee =>
        match checked_sub c.current_amount fee with
        | none => Except.error Fault.arithmeticPanic
        | some amount_to_executor =>
          Except.ok ((if fee > 0 then [Transfer.toPlatform fee] else []) ++
            (if amount_to_executor > 0 then
              [Transfer.toExecutor amount_to_executor] else []))) = _
  simp only [checked_mul_of_le _ _ h2,
    checked_div_of_ne _ BPS_DIVISOR (by norm_num [BPS_DIVISOR]),
    checked_sub_of_le _ _ hle]
  rfl

/-- A withdrawal from a `Funded` campaign whose fee multiplication overflows
aborts with the arithmetic panic of the `unwrap()`. -/
theorem withdraw_panic (c : Campaign) (h1 : c.status = .Funded)
    (h2 : ¬ c.current_amount * PLATFORM_FEE_BPS ≤ U64_MAX) :
    withdraw_and_complete c = .error .arithmeticPanic := by
  unfold withdraw_and_complete
  rw [if_neg (by simp [h1])]
  show (match checked_mul c.current_amount PLATFORM_FEE_BPS with
    | none => Except.error Fault.arithmeticPanic
    | some m =>
      match checked_div m BPS_DIVISOR with
      | none => Except.error Fault.arithmeticPanic
      | some fee =>
        match checked_sub c.current_amount fee with
        | none => Except.error Fault.arithmeticPanic
        | some amount_to_executor =>
          Except.ok ((if fee > 0 then [Transfer.toPlatform fee] else []) ++
            (if amount_to_executor > 0 then
              [Transfer.toExecutor amount_to_executor] else []))) = _
  simp only [checked_mul_of_gt _ _ h2]

theorem withdraw_not_funded (c : Campaign) (h1 : ¬ c.status = .Funded) :
    withdraw_and_complete c = .error (.progError .CampaignNotFunded) := by
  unfold withdraw_and_complete
  rw [if_pos h1]

theorem cancel_body_ok_iff (c : Campaign) (now : Int) (c1 : Campaign) :
    cancel_campaign_body c now = .ok c1 ↔
      (canCancel c now ∧
       c1 = (if c.current_amount = 0 then c
             else { c with status := .Cancelled })) := by
  unfold cancel_campaign_body canCancel
  split_ifs with h1 h2 <;> simp_all [eq_comm] <;> split_ifs <;>
    simp_all [eq_comm] <;> tauto

/-- A `cancel_campaign` instruction succeeds exactly when the cancellability
predicate holds, and a successful cancel always closes the account. -/
theorem cancel_ok_iff (c : Campaign) (now : Int) (oc : Option Campaign) :
    cancel_campaign c now = .ok oc ↔ (canCancel c now ∧ oc = none) := by
  unfold cancel_campaign
  rcases h : cancel_campaign_body c now with e | c1
  · simp only [Except.map]
    constructor
    · intro hc; cases hc
    · rintro ⟨hcan, rfl⟩
      have hb := (cancel_body_ok_iff c now (if c.current_amount = 0 then c
        else { c with status := .Cancelled })).mpr ⟨hcan, rfl⟩
      rw [h] at hb
      cases hb
  · have := (cancel_body_ok_iff c now c1).mp h
    simp [Except.map, this.1, eq_comm]

/-- A successful `claim_refund` is exactly a call passing the two `require!`
checks with no underflow, and it returns the campaign with `receipt.amount`
subtracted together with that transferred amount. -/
theorem claim_refund_ok_iff (c : Campaign) (r : DonationReceipt) (donor : Nat)
    (c1 : Campaign) (amt : Nat) :
    claim_refund c r donor = .ok (c1, amt) ↔
      (c.status = .Cancelled ∧ r.donor = donor ∧
       r.amount ≤ c.current_amount ∧
       c1 = { c with current_amount := c.current_amount - r.amount } ∧
       amt = r.amount) := by
  unfold claim_refund checked_sub
  split_ifs with h1 h2 h3 <;> simp_all [eq_comm] <;> split_ifs <;>
    simp_all [eq_comm] <;> tauto

theorem find?_of_filter_singleton {α} (p : α → Bool) (l : List α) (r : α)
    (h : l.filter p = [r]) : l.find? p = some r := by
  induction l with
  | nil => simp at h
  | cons a t ih =>
    rcases hp : p a with _ | _
    · rw [List.filter_cons_of_neg (by simp [hp])] at h
      rw [List.find?_cons_of_neg _ (by simp [hp])]
      exact ih h
    · rw [List.filter_cons_of_pos (by simp [hp])] at h
      rw [List.find?_cons_of_pos _ (by simp [hp])]
      simp at h
      simp [h.1]

theorem filter_eraseP_tail {α} (p : α → Bool) (l : List α) :
    (l.eraseP p).filter p = (l.filter p).tail := by
  induction l with
  | nil => rfl
  | cons a t ih =>
    rcases hp : p a with _ | _
    · rw [List.eraseP_cons_of_neg (by simp [hp]),
        List.filter_cons_of_neg (by simp [hp]),
        List.filter_cons_of_neg (by simp [hp]), ih]
    · rw [List.eraseP_cons_of_pos (by simp [hp]),
        List.filter_cons_of_pos (by simp [hp])]
      rfl

theorem receiptSumList_cons (a : DonationReceipt) (l : List DonationReceipt) :
    receiptSumList (a :: l) =
      (if a.campaign = CAMPAIGN_PDA then a.amount else 0) + receiptSumList l := by
  unfold receiptSumList
  rcases hp : a.campaign == CAMPAIGN_PDA with _ | _
  · rw [List.filter_cons_of_neg (by simp [hp]), if_neg (by simpa using hp)]
    simp
  · rw [List.filter_cons_of_pos (by simp [hp]), if_pos (by simpa using hp)]
    simp

theorem receiptSumList_eraseP (p : DonationReceipt → Bool)
    (l : List DonationReceipt) (r : DonationReceipt)
    (hf : l.find? p = some r) (hq : r.campaign = CAMPAIGN_PDA) :
    receiptSumList (l.eraseP p) + r.amount = receiptSumList l := by
  induction l with
  | nil => simp at hf
  | cons a t ih =>
    rcases hp : p a with _ | _
    · rw [List.find?_cons_of_neg _ (by simp [hp])] at hf
      rw [List.eraseP_cons_of_neg (by simp [hp]), receiptSumList_cons,
        receiptSumList_cons, Nat.add_assoc, ih hf]
    · rw [List.find?_cons_of_pos _ (by simp [hp])] at hf
      cases hf
      rw [List.eraseP_cons_of_pos (by simp [hp]), receiptSumList_cons,
        if_pos hq, Nat.add_comm]

theorem stepE_create_ok (s : ChainState) (t d : String) (tgt : Nat)
    (loc : String) (ms mus : List String) (cat : CampaignCategory) (now : Int)
    (s1 : ChainState)
    (h : stepE s (.create t d tgt loc ms mus cat now) = .ok s1) :
    s.campaign = none ∧ ∃ c,
      create_campaign AUTHORITY t d tgt loc ms mus cat now = .ok c ∧
      s1 = { s with campaign := some c } := by
  simp only [stepE] at h
  rcases hc : s.campaign with _ | c0
  · rw [hc] at h
    rcases hcr : create_campaign AUTHORITY t d tgt loc ms mus cat now with e | c
    · rw [hcr] at h; cases h
    · rw [hcr] at h
      cases h
      refine ⟨?_, c, ?_, ?_⟩ <;> simp [hc, hcr]
  · rw [hc] at h; cases h

theorem stepE_donate_ok (s : ChainState) (d a : Nat) (now : Int)
    (s1 : ChainState) (h : stepE s (.donate d a now) = .ok s1) :
    ∃ c c1, s.campaign = some c ∧
      s.receipts.any (fun r => r.donor == d) = false ∧
      donate_to_campaign c now a = .ok c1 ∧
      s1 = { campaign := some c1,
             receipts := { donor := d, campaign := CAMPAIGN_PDA, amount := a,
                           timestamp := now } :: s.receipts } := by
  simp only [stepE] at h
  rcases hc : s.campaign with _ | c
  · rw [hc] at h; cases h
  · rw [hc] at h
    rcases ha : s.receipts.any (fun r => r.donor == d) with _ | _
    · rw [ha] at h
      simp only [Bool.false_eq_true, if_false] at h
      rcases hd : donate_to_campaign c now a with e | c1
      · rw [hd] at h; cases h
      · rw [hd] at h
        cases h
        refine ⟨c, c1, ?_, ?_, ?_, ?_⟩ <;> simp [hc, ha, hd]
    · rw [ha] at h
      simp only [if_true] at h
      cases h

theorem stepE_withdraw_ok (s : ChainState) (s1 : ChainState)
    (h : stepE s .withdraw = .ok s1) :
    ∃ c ts, s.campaign = some c ∧ withdraw_and_complete c = .ok ts ∧
      s1 = { s with campaign := none } := by
  simp only [stepE] at h
  rcases hc : s.campaign with _ | c
  · rw [hc] at h; cases h
  · rw [hc] at h
    dsimp only at h
    rcases hw : withdraw_and_complete c with e | ts
    · rw [hw] at h; cases h
    · rw [hw] at h
      cases h
      refine ⟨c, ts, ?_, ?_, ?_⟩ <;> simp [hc, hw]

theorem stepE_cancel_ok (s : ChainState) (now : Int) (s1 : ChainState)
    (h : stepE s (.cancel now) = .ok s1) :
    ∃ c, s.campaign = some c ∧ canCancel c now ∧
      s1 = { s with campaign := none } := by
  simp only [stepE] at h
  rcases hc : s.campaign with _ | c
  · rw [hc] at h; cases h
  · rw [hc] at h
    dsimp only at h
    rcases hw : cancel_campaign c now with e | oc
    · rw [hw] at h; cases h
    · rw [hw] at h
      cases h
      have := (cancel_ok_iff c now oc).mp hw
      refine ⟨c, ?_, this.1, ?_⟩ <;> simp [hc, this.2]

theorem stepE_refund_ok (s : ChainState) (d : Nat) (s1 : ChainState)
    (h : stepE s (.refund d) = .ok s1) :
    ∃ c r, s.campaign = some c ∧
      s.receipts.find? (fun x => x.donor == d) = some r ∧
      r.campaign = CAMPAIGN_PDA ∧
      c.status = .Cancelled ∧ r.donor = d ∧ r.amount ≤ c.current_amount ∧
      claim_refund c r d =
        .ok ({ c with current_amount := c.current_amount - r.amount },
             r.amount) ∧
      s1 = { campaign :=
               some { c with current_amount := c.current_amount - r.amount }
             receipts := s.receipts.eraseP (fun x => x.donor == d) } := by
  simp only [stepE] at h
  rcases hc : s.campaign with _ | c
  · rw [hc] at h; cases h
  · rw [hc] at h
    dsimp only at h
    rcases hf : s.receipts.find? (fun x => x.donor == d) with _ | r
    · rw [hf] at h; cases h
    · rw [hf] at h
      dsimp only at h
      by_cases hpda : r.campaign = CAMPAIGN_PDA
      · rw [if_neg (by simp [hpda])] at h
        rcases hr : claim_refund c r d with e | p
        · rw [hr] at h; cases h
        · rcases p with ⟨c1, amt⟩
          rw [hr] at h
          cases h
          have hspec := (claim_refund_ok_iff c r d c1 amt).mp hr
          rcases hspec with ⟨hst, hdn, hle, hc1, hamt⟩
          subst hc1
          subst hamt
          refine ⟨c, r, ?_, ?_, hpda, hst, hdn, hle, hr, ?_⟩ <;> simp [hc, hf]
      · rw [if_pos hpda] at h
        cases h

/-- Any single non-`create` instruction preserves the donation-accounting
invariant (a failed instruction rolls back and preserves it trivially). -/
theorem applyOp_preserves_sumInvariant (s : ChainState) (op : Op)
    (hop : op.isCreate = false) (hinv : sumInvariant s) :
    sumInvariant (applyOp s op) := by
  unfold applyOp
  rcases hs : stepE s op with e | s1
  · exact hinv
  · intro c1 hc1
    cases op with
    | create t d tgt loc ms mus cat now => cases hop
    | donate d a now =>
      obtain ⟨c, c2, hc, hany, hd, hs1⟩ := stepE_donate_ok s d a now s1 hs
      subst hs1
      simp only at hc1
      rw [(by simpa using hc1 : c2 = c1)] at hd
      have hspec := (donate_ok_iff c now a c1).mp hd
      have hcur : c1.current_amount = c.current_amount + a := by
        rcases hspec with ⟨-, -, -, -, hc1e⟩
        subst hc1e
        split_ifs <;> rfl
      have hold := hinv c hc
      simp only [receiptSum] at hold ⊢
      rw [receiptSumList_cons, if_pos rfl]
      dsimp only
      omega
    | withdraw =>
      obtain ⟨c, ts, hc, hw, hs1⟩ := stepE_withdraw_ok s s1 hs
      subst hs1
      simp at hc1
    | cancel now =>
      obtain ⟨c, hc, hcan, hs1⟩ := stepE_cancel_ok s now s1 hs
      subst hs1
      simp at hc1
    | refund d =>
      obtain ⟨c, r, hc, hf, hpda, hst, hdn, hle, hr, hs1⟩ :=
        stepE_refund_ok s d s1 hs
      subst hs1
      simp only at hc1
      have hc1e : c1 = { c with current_amount := c.current_amount - r.amount } := by
        simpa using hc1.symm
      subst hc1e
      have hold := hinv c hc
      have hsum := receiptSumList_eraseP (fun x => x.donor == d) s.receipts r hf hpda
      simp only [receiptSum] at hold ⊢
      omega

/-- Instruction sequences without a `create` preserve the invariant. -/
theorem run_preserves_sumInvariant (ops : List Op) :
    ∀ s : ChainState, (∀ op ∈ ops, op.isCreate = false) → sumInvariant s →
      sumInvariant (run s ops) := by
  induction ops with
  | nil => exact fun s _ hinv => hinv
  | cons op t ih =>
    intro s hops hinv
    have := ih (applyOp s op) (fun o ho => hops o (List.mem_cons_of_mem _ ho))
      (applyOp_preserves_sumInvariant s op (hops op (List.mem_cons_self op t))
        hinv)
    simpa [run, List.foldl_cons] using this

/-- The only instruction that succeeds against a `Funded` campaign is
`withdraw_and_complete`, and it closes the account. -/
theorem funded_only_withdraw (s : ChainState) (c : Campaign) (op : Op)
    (s1 : ChainState) (hc : s.campaign = some c) (hst : c.status = .Funded)
    (h : stepE s op = .ok s1) : op = .withdraw ∧ s1.campaign = none := by
  cases op with
  | create t d tgt loc ms mus cat now =>
    obtain ⟨hnone, -⟩ := stepE_create_ok s t d tgt loc ms mus cat now s1 h
    rw [hc] at hnone
    cases hnone
  | donate d a now =>
    obtain ⟨c2, c3, hc2, -, hd, -⟩ := stepE_donate_ok s d a now s1 h
    rw [hc] at hc2
    cases hc2
    have := ((donate_ok_iff c now a c3).mp hd).2.1
    rw [hst] at this
    cases this
  | withdraw =>
    obtain ⟨c2, ts, hc2, hw, hs1⟩ := stepE_withdraw_ok s s1 h
    subst hs1
    exact ⟨rfl, rfl⟩
  | cancel now =>
    obtain ⟨c2, hc2, hcan, -⟩ := stepE_cancel_ok s now s1 h
    rw [hc] at hc2
    cases hc2
    rcases hcan with hca | ⟨-, hcf⟩
    · rw [hst] at hca; cases hca
    · exact absurd hst hcf
  | refund d =>
    obtain ⟨c2, r, hc2, -, -, hcst, -⟩ := stepE_refund_ok s d s1 h
    rw [hc] at hc2
    cases hc2
    rw [hst] at hcst
    cases hcst

theorem cancel_not_cancellable (c : Campaign) (now : Int)
    (h : ¬ canCancel c now) :
    cancel_campaign c now = .error (.progError .CannotCancelCampaign) := by
  unfold cancel_campaign cancel_campaign_body
  rw [if_neg (by simpa [canCancel] using h)]
  rfl

theorem withdraw_ok_cond (c : Campaign) (ts : List Transfer)
    (h : withdraw_and_complete c = .ok ts) :
    c.status = .Funded ∧ c.current_amount * PLATFORM_FEE_BPS ≤ U64_MAX := by
  by_cases h1 : c.status = .Funded
  · by_cases h2 : c.current_amount * PLATFORM_FEE_BPS ≤ U64_MAX
    · exact ⟨h1, h2⟩
    · rw [withdraw_panic c h1 h2] at h; cases h
  · rw [withdraw_not_funded c h1] at h; cases h

theorem find?_eq_none_of_filter_eq_nil {α} (p : α → Bool) (l : List α)
    (h : l.filter p = []) : l.find? p = none := by
  rw [List.find?_eq_none]
  intro x hx hpx
  have : x ∈ l.filter p := List.mem_filter.mpr ⟨hx, hpx⟩
  rw [h] at this
  cases this

/-- C1: the claim says a successful cancel of a campaign with
`current_amount > 0` leaves the account in existence with status `Cancelled`
so donors can claim refunds, and that only a zero-donation cancel closes the
account.  The code violates this: the `CancelCampaign` accounts struct
carries an unconditional `close = authority` constraint, so the account is
closed (and its lamports swept to the authority) on every successful cancel.
At the failing input below the handler body writes `Cancelled` as the
comments describe, yet the instruction still closes the account. -/
theorem C1_cancel_closes_despite_donations :
    sampleActive.current_amount = 200 ∧
    cancel_campaign_body sampleActive 50 =
      .ok { sampleActive with status := .Cancelled } ∧
    cancel_campaign sampleActive 50 = .ok none := by
  refine ⟨rfl, ?_, ?_⟩ <;> decide

/-- C3: a successful `withdraw_and_complete` pays the platform
`fee = floor(current_amount * 300 / 10000)` and the executor exactly
`current_amount - fee`, so the two add up to `current_amount`, and any
transfer leg whose computed amount is zero is skipped. -/
theorem C3_withdraw_fee_split (c : Campaign) (ts : List Transfer)
    (h : withdraw_and_complete c = .ok ts) :
    feeOf c.current_amount = c.current_amount * 300 / 10000 ∧
    feeOf c.current_amount +
      (c.current_amount - feeOf c.current_amount) = c.current_amount ∧
    ts = ((if 0 < feeOf c.current_amount then
             [Transfer.toPlatform (feeOf c.current_amount)] else []) ++
          (if 0 < c.current_amount - feeOf c.current_amount then
             [Transfer.toExecutor
               (c.current_amount - feeOf c.current_amount)] else [])) ∧
    (∀ tr ∈ ts, 0 < tr.amount) := by
  obtain ⟨h1, h2⟩ := withdraw_ok_cond c ts h
  rw [withdraw_ok_spec c h1 h2] at h
  have hts := (Except.ok.injEq _ _).mp h.symm
  have hle : feeOf c.current_amount ≤ c.current_amount :=
    fee_le_total c.current_amount
  refine ⟨rfl, by omega, hts, ?_⟩
  intro tr htr
  rw [hts] at htr
  rcases List.mem_append.mp htr with hm | hm <;>
    [skip; skip] <;> split_ifs at hm with hp <;> simp_all [Transfer.amount]

theorem C3_withdraw_fee_split_witness :
    withdraw_and_complete sampleFunded =
      .ok [Transfer.toPlatform 30, Transfer.toExecutor 970] ∧
    (feeOf sampleFunded.current_amount =
       sampleFunded.current_amount * 300 / 10000 ∧
     feeOf sampleFunded.current_amount +
       (sampleFunded.current_amount - feeOf sampleFunded.current_amount) =
         sampleFunded.current_amount ∧
     [Transfer.toPlatform 30, Transfer.toExecutor 970] =
       ((if 0 < feeOf sampleFunded.current_amount then
           [Transfer.toPlatform (feeOf sampleFunded.current_amount)] else []) ++
        (if 0 < sampleFunded.current_amount -
               feeOf sampleFunded.current_amount then
           [Transfer.toExecutor
             (sampleFunded.current_amount -
              feeOf sampleFunded.current_amount)] else [])) ∧
     (∀ tr ∈ [Transfer.toPlatform 30, Transfer.toExecutor 970],
        0 < tr.amount)) :=
  ⟨by decide,
   C3_withdraw_fee_split sampleFunded
     [Transfer.toPlatform 30, Transfer.toExecutor 970] (by decide)⟩

/-- C10: the fee computation in `withdraw_and_complete` uses
`checked_mul(300).unwrap()`: for every `Funded` campaign with
`current_amount <= floor(u64::MAX / 300)` the arithmetic never panics and
the withdrawal succeeds, while for any larger `current_amount` the
instruction aborts with an arithmetic fault, which is none of the
`VeesrError` program errors documented for withdraw. -/
theorem C10_withdraw_panic_bound (c : Campaign) (h : c.status = .Funded) :
    (c.current_amount ≤ U64_MAX / PLATFORM_FEE_BPS →
       (withdraw_and_complete c).isOk = true) ∧
    (U64_MAX / PLATFORM_FEE_BPS < c.current_amount →
       withdraw_and_complete c = .error .arithmeticPanic ∧
       ∀ e : VeesrError,
         withdraw_and_complete c ≠ .error (.progError e)) := by
  have hpos : 0 < PLATFORM_FEE_BPS := by norm_num [PLATFORM_FEE_BPS]
  constructor
  · intro hle
    have hmul : c.current_amount * PLATFORM_FEE_BPS ≤ U64_MAX :=
      (Nat.le_div_iff_mul_le hpos).mp hle
    rw [withdraw_ok_spec c h hmul]
    rfl
  · intro hgt
    have hmul : ¬ c.current_amount * PLATFORM_FEE_BPS ≤ U64_MAX := by
      intro hcon
      exact absurd ((Nat.le_div_iff_mul_le hpos).mpr hcon) (by omega)
    refine ⟨withdraw_panic c h hmul, ?_⟩
    intro e hcon
    rw [withdraw_panic c h hmul] at hcon
    cases hcon

theorem C10_withdraw_panic_bound_witness :
    sampleFunded.status = CampaignStatus.Funded ∧
    ((sampleFunded.current_amount ≤ U64_MAX / PLATFORM_FEE_BPS →
        (withdraw_and_complete sampleFunded).isOk = true) ∧
     (U64_MAX / PLATFORM_FEE_BPS < sampleFunded.current_amount →
        withdraw_and_complete sampleFunded = .error .arithmeticPanic ∧
        ∀ e : VeesrError,
          withdraw_and_complete sampleFunded ≠ .error (.progError e))) :=
  ⟨by decide, C10_withdraw_panic_bound sampleFunded (by decide)⟩

/-- C6: a successful donation adds its amount to `current_amount` and flips
the status to `Funded` within the same call exactly when the new total
reaches `target_amount`; otherwise the status stays `Active`. -/
theorem C6_funded_flip (c : Campaign) (now : Int) (a : Nat) (c1 : Campaign)
    (h : donate_to_campaign c now a = .ok c1) :
    c1.current_amount = c.current_amount + a ∧
    (c1.status = .Funded ↔ c.target_amount ≤ c.current_amount + a) ∧
    (¬ c.target_amount ≤ c.current_amount + a → c1.status = .Active) := by
  obtain ⟨-, hact, -, -, hc1⟩ := (donate_ok_iff c now a c1).mp h
  subst hc1
  split_ifs with hf
  · simp [hf]
  · simp [hact, hf]

theorem C6_funded_flip_witness :
    donate_to_campaign sampleActive 5 800 = .ok sampleJustFunded ∧
    (sampleJustFunded.current_amount = sampleActive.current_amount + 800 ∧
     (sampleJustFunded.status = CampaignStatus.Funded ↔
        sampleActive.target_amount ≤ sampleActive.current_amount + 800) ∧
     (¬ sampleActive.target_amount ≤ sampleActive.current_amount + 800 →
        sampleJustFunded.status = CampaignStatus.Active)) :=
  ⟨by decide, C6_funded_flip sampleActive 5 800 sampleJustFunded (by decide)⟩

/-- C5: `donate_to_campaign` fails without mutating state whenever the
status is not `Active` (error `CampaignNotActive`) or the clock has reached
the deadline (error `CampaignExpired`); the boundary `now == deadline` is
rejected while `now == deadline - 1` passes these two checks. -/
theorem C5_donate_gating (c : Campaign) (now : Int) (a : Nat) :
    ((¬ c.status = .Active ∨ now ≥ c.deadline) →
       (donate_to_campaign c now a).isOk = false ∧
       ∀ s d, s.campaign = some c →
         applyOp s (.donate d a now) = s) ∧
    (0 < a → ¬ c.status = .Active →
       donate_to_campaign c now a =
         .error (.progError .CampaignNotActive)) ∧
    (0 < a → c.status = .Active → now ≥ c.deadline →
       donate_to_campaign c now a =
         .error (.progError .CampaignExpired)) ∧
    (c.status = .Active → now = c.deadline →
       (donate_to_campaign c now a).isOk = false) ∧
    (c.status = .Active → 0 < a → now = c.deadline - 1 →
       donate_to_campaign c now a ≠
           .error (.progError .CampaignNotActive) ∧
       donate_to_campaign c now a ≠
           .error (.progError .CampaignExpired)) := by
  have hfail : (¬ c.status = .Active ∨ now ≥ c.deadline) →
      (donate_to_campaign c now a).isOk = false := by
    intro hbad
    rcases hok : donate_to_campaign c now a with e | c1
    · rfl
    · obtain ⟨-, hact, hdl, -, -⟩ := (donate_ok_iff c now a c1).mp hok
      rcases hbad with hb | hb
      · exact absurd hact hb
      · omega
  refine ⟨fun hbad => ⟨hfail hbad, ?_⟩, ?_, ?_, ?_, ?_⟩
  · intro s d hs
    unfold applyOp
    rcases hstep : stepE s (.donate d a now) with e | s1
    · rfl
    · obtain ⟨c2, c3, hc2, -, hdok, -⟩ := stepE_donate_ok s d a now s1 hstep
      rw [hs] at hc2
      cases hc2
      have := hfail hbad
      rw [hdok] at this
      cases this
  · intro ha hact
    unfold donate_to_campaign
    rw [if_neg (by omega), if_pos hact]
  · intro ha hact hdl
    unfold donate_to_campaign
    rw [if_neg (by omega), if_neg (by simp [hact]), if_pos (by omega)]
  · intro hact hdl
    exact hfail (Or.inr (by omega))
  · intro hact ha hdl
    constructor <;> intro hcon <;> unfold donate_to_campaign at hcon <;>
      rw [if_neg (by omega), if_neg (by simp [hact]),
        if_neg (by omega)] at hcon <;>
      rcases hadd : checked_add c.current_amount a with _ | v <;>
      rw [hadd] at hcon <;> dsimp only at hcon <;>
      first
        | cases hcon
        | (split_ifs at hcon <;> cases hcon)

theorem C5_donate_gating_witness :
    (donate_to_campaign sampleCancelled 5 7 =
       .error (.progError .CampaignNotActive)) ∧
    (donate_to_campaign sampleActive 2592000 7).isOk = false ∧
    (donate_to_campaign sampleActive 2591999 7 ≠
       .error (.progError .CampaignNotActive) ∧
     donate_to_campaign sampleActive 2591999 7 ≠
       .error (.progError .CampaignExpired)) :=
  ⟨(C5_donate_gating sampleCancelled 5 7).2.1 (by decide) (by decide),
   (C5_donate_gating sampleActive 2592000 7).2.2.2.1 (by decide) (by decide),
   (C5_donate_gating sampleActive 2591999 7).2.2.2.2 (by decide) (by decide)
     (by decide)⟩

/-- C7: `create_campaign` succeeds exactly when `target_amount > 0`, the
title has 1 to 50 chars and the description 1 to 500 chars; a successful
creation starts `Active` with `current_amount = 0` and
`deadline = created_at + 30 days`; each violation fails with its matching
error and leaves no campaign account. -/
theorem C7_create_validation (a : Nat) (t d : String) (tgt : Nat)
    (loc : String) (ms mus : List String) (cat : CampaignCategory)
    (now : Int) :
    ((∃ c, create_campaign a t d tgt loc ms mus cat now = .ok c) ↔
       (0 < tgt ∧ (0 < t.length ∧ t.length ≤ 50) ∧
        (0 < d.length ∧ d.length ≤ 500))) ∧
    (∀ c, create_campaign a t d tgt loc ms mus cat now = .ok c →
       c.status = .Active ∧ c.current_amount = 0 ∧ c.created_at = now ∧
       c.deadline = c.created_at + SECONDS_30_DAYS) ∧
    (¬ 0 < tgt →
       create_campaign a t d tgt loc ms mus cat now =
         .error (.progError .InvalidTargetAmount)) ∧
    (0 < tgt → ¬ (0 < t.length ∧ t.length ≤ 50) →
       create_campaign a t d tgt loc ms mus cat now =
         .error (.progError .InvalidTitle)) ∧
    (0 < tgt → (0 < t.length ∧ t.length ≤ 50) →
       ¬ (0 < d.length ∧ d.length ≤ 500) →
       create_campaign a t d tgt loc ms mus cat now =
         .error (.progError .InvalidDescription)) ∧
    (∀ s : ChainState,
       ¬ (∃ c, create_campaign AUTHORITY t d tgt loc ms mus cat now = .ok c) →
       applyOp s (.create t d tgt loc ms mus cat now) = s) := by
  refine ⟨?_, ?_, ?_, ?_, ?_, ?_⟩
  · constructor
    · rintro ⟨c, hc⟩
      obtain ⟨h1, h2, h3, -⟩ := (create_ok_iff a t d tgt loc ms mus cat now c).mp hc
      exact ⟨h1, h2, h3⟩
    · rintro ⟨h1, h2, h3⟩
      exact ⟨_, (create_ok_iff a t d tgt loc ms mus cat now _).mpr
        ⟨h1, h2, h3, rfl⟩⟩
  · intro c hc
    obtain ⟨-, -, -, hce⟩ := (create_ok_iff a t d tgt loc ms mus cat now c).mp hc
    subst hce
    exact ⟨rfl, rfl, rfl, rfl⟩
  · intro h1
    unfold create_campaign
    rw [if_pos (by omega)]
  · intro h1 h2
    unfold create_campaign
    rw [if_neg (by omega), if_pos h2]
  · intro h1 h2 h3
    unfold create_campaign
    rw [if_neg (by omega), if_neg (by simpa using h2), if_pos h3]
  · intro s hno
    unfold applyOp
    rcases hstep : stepE s (.create t d tgt loc ms mus cat now) with e | s1
    · rfl
    · obtain ⟨-, c, hcr, -⟩ :=
        stepE_create_ok s t d tgt loc ms mus cat now s1 hstep
      exact absurd ⟨c, hcr⟩ hno

theorem C7_create_validation_witness :
    ((∃ c, create_campaign AUTHORITY "t" "d" 100 "loc" [] [] .Other 0 =
        .ok c) ↔
       (0 < 100 ∧ (0 < "t".length ∧ "t".length ≤ 50) ∧
        (0 < "d".length ∧ "d".length ≤ 500))) ∧
    (create_campaign AUTHORITY "" "d" 100 "loc" [] [] .Other 0 =
       .error (.progError .InvalidTitle)) :=
  ⟨(C7_create_validation AUTHORITY "t" "d" 100 "loc" [] [] .Other 0).1,
   (C7_create_validation AUTHORITY "" "d" 100 "loc" [] [] .Other 0).2.2.2.1
     (by decide) (by decide)⟩

/-- C8: `Funded` and `Cancelled` exclude each other: cancel never succeeds
on a `Funded` campaign (whatever the clock says), withdraw never succeeds on
a `Cancelled` campaign, and the only instruction that succeeds against a
live `Funded` campaign is the withdrawal that closes it, so a `Funded`
campaign can never become `Cancelled`. -/
theorem C8_funded_cancelled_exclusive (c : Campaign) (now : Int) :
    (c.status = .Funded →
       cancel_campaign c now = .error (.progError .CannotCancelCampaign)) ∧
    (c.status = .Cancelled →
       withdraw_and_complete c =
         .error (.progError .CampaignNotFunded)) ∧
    (∀ s op s1, s.campaign = some c → c.status = .Funded →
       stepE s op = .ok s1 → op = .withdraw ∧ s1.campaign = none) := by
  refine ⟨?_, ?_, ?_⟩
  · intro h
    exact cancel_not_cancellable c now (by simp [canCancel, h])
  · intro h
    exact withdraw_not_funded c (by simp [h])
  · intro s op s1 hs hf hstep
    exact funded_only_withdraw s c op s1 hs hf hstep

theorem C8_funded_cancelled_exclusive_witness :
    (cancel_campaign sampleFunded 99999999 =
       .error (.progError .CannotCancelCampaign)) ∧
    (withdraw_and_complete sampleCancelled =
       .error (.progError .CampaignNotFunded)) ∧
    (Op.withdraw = Op.withdraw ∧
     (ChainState.mk none [] : ChainState).campaign = none) :=
  ⟨(C8_funded_cancelled_exclusive sampleFunded 99999999).1 (by decide),
   (C8_funded_cancelled_exclusive sampleCancelled 0).2.1 (by decide),
   (C8_funded_cancelled_exclusive sampleFunded 0).2.2
     (ChainState.mk (some sampleFunded) []) .withdraw
     (ChainState.mk none []) (by decide) (by decide) (by decide)⟩

/-- C2 counterexample: after the four successful operations of `C2ops` the
existing campaign has `current_amount = 0` while the live receipts
referencing it sum to 100, so the claimed equality fails. -/
theorem C2_counterexample :
    runE initialState C2ops = some C2final ∧
    C2final.campaign = some C2recreated ∧
    C2recreated.current_amount = 0 ∧ receiptSum C2final = 100 ∧
    ¬ sumInvariant C2final :=
  ⟨by decide, by decide, by decide, by decide,
   fun h => absurd (h C2recreated (by decide)) (by decide)⟩

/-- C2 amended: for sequences of successful operations in which the
campaign is created only once (no re-creation at the same PDA after a close
leaves stale receipts), `current_amount` equals the sum of the live
receipts referencing the campaign at every operation boundary. -/
theorem C2_sum_invariant_no_recreate (t d : String) (tgt : Nat)
    (loc : String) (ms mus : List String) (cat : CampaignCategory)
    (now : Int) (s0 : ChainState) (ops : List Op) (n : Nat)
    (hcreate : stepE initialState (.create t d tgt loc ms mus cat now) =
      .ok s0)
    (hops : ∀ op ∈ ops, op.isCreate = false) :
    sumInvariant (run s0 (ops.take n)) := by
  have hbase : sumInvariant s0 := by
    obtain ⟨-, c, hcr, hs0⟩ :=
      stepE_create_ok initialState t d tgt loc ms mus cat now s0 hcreate
    subst hs0
    intro c1 hc1
    obtain ⟨-, -, -, hce⟩ :=
      (create_ok_iff AUTHORITY t d tgt loc ms mus cat now c).mp hcr
    have hcc : c = c1 := by simpa using hc1
    subst hcc
    subst hce
    rfl
  exact run_preserves_sumInvariant (ops.take n) s0
    (fun op hop => hops op (List.take_subset n ops hop)) hbase

theorem C2_sum_invariant_no_recreate_witness :
    stepE initialState (.create "t" "d" 5 "" [] [] .Other 0) =
      .ok C2wState ∧
    (∀ op ∈ [Op.donate 3 2 1], op.isCreate = false) ∧
    sumInvariant (run C2wState ([Op.donate 3 2 1].take 1)) :=
  ⟨by decide, by decide,
   C2_sum_invariant_no_recreate "t" "d" 5 "" [] [] .Other 0 C2wState
     [Op.donate 3 2 1] 1 (by decide) (by decide)⟩

/-- C4: against a `Cancelled` campaign, a donor holding the unique live
receipt gets refunded exactly `receipt.amount`, `current_amount` drops by
exactly that amount, the receipt is destroyed, and an immediate second
refund attempt by the same donor fails because the receipt account no
longer exists. -/
theorem C4_refund_exactly_once (s : ChainState) (c : Campaign)
    (r : DonationReceipt) (d : Nat)
    (hs : s.campaign = some c) (hst : c.status = .Cancelled)
    (hfil : s.receipts.filter (fun x => x.donor == d) = [r])
    (hpda : r.campaign = CAMPAIGN_PDA)
    (hle : r.amount ≤ c.current_amount) :
    claim_refund c r d =
      .ok ({ c with current_amount := c.current_amount - r.amount },
           r.amount) ∧
    stepE s (.refund d) =
      .ok { campaign :=
              some { c with current_amount := c.current_amount - r.amount },
            receipts := s.receipts.eraseP (fun x => x.donor == d) } ∧
    (s.receipts.eraseP (fun x => x.donor == d)).filter
        (fun x => x.donor == d) = [] ∧
    stepE { campaign :=
              some { c with current_amount := c.current_amount - r.amount },
            receipts := s.receipts.eraseP (fun x => x.donor == d) }
        (.refund d) = .error .accountError := by
  have hfind := find?_of_filter_singleton (fun x => x.donor == d)
    s.receipts r hfil
  have hrmem : r ∈ s.receipts.filter (fun x => x.donor == d) := by
    rw [hfil]; exact List.mem_singleton.mpr rfl
  have hdonor : r.donor = d := by
    simpa using (List.mem_filter.mp hrmem).2
  have hclaim : claim_refund c r d =
      .ok ({ c with current_amount := c.current_amount - r.amount },
           r.amount) :=
    (claim_refund_ok_iff c r d _ r.amount).mpr ⟨hst, hdonor, hle, rfl, rfl⟩
  have herase : (s.receipts.eraseP (fun x => x.donor == d)).filter
      (fun x => x.donor == d) = [] := by
    rw [filter_eraseP_tail, hfil]
    rfl
  refine ⟨hclaim, ?_, herase, ?_⟩
  · simp only [stepE]
    rw [hs]
    dsimp only
    rw [hfind]
    dsimp only
    rw [if_neg (by simp [hpda]), hclaim]
    rfl
  · simp only [stepE]
    rw [find?_eq_none_of_filter_eq_nil _ _ herase]

theorem C4_refund_exactly_once_witness :
    C4wState.campaign = some sampleCancelled ∧
    sampleCancelled.status = CampaignStatus.Cancelled ∧
    C4wState.receipts.filter (fun x => x.donor == 7) = [C4receipt] ∧
    C4receipt.campaign = CAMPAIGN_PDA ∧
    C4receipt.amount ≤ sampleCancelled.current_amount ∧
    (claim_refund sampleCancelled C4receipt 7 = .ok (sampleRefunded, 200) ∧
     stepE C4wState (.refund 7) = .ok C4wAfter ∧
     C4wAfter.receipts.filter (fun x => x.donor == 7) = [] ∧
     stepE C4wAfter (.refund 7) = .error .accountError) :=
  ⟨by decide, by decide, by decide, by decide, by decide,
   C4_refund_exactly_once C4wState sampleCancelled C4receipt 7
     (by decide) (by decide) (by decide) (by decide) (by decide)⟩

/-- C9 counterexample: `create_campaign` performs no length validation on
`location` (nor on `metrics` / `media_uris`), so a creation with a 101-char
location succeeds and the resulting campaign violates the claimed
100-char bound.  (The oversized field also fits the account's overall
space budget, so the host's serialization would not reject it either.) -/
theorem C9_counterexample :
    (create_campaign AUTHORITY "t" "d" 1 C9bigLoc [] [] .Other 0).isOk =
      true ∧
    (create_campaign AUTHORITY "t" "d" 1 C9bigLoc [] [] .Other 0).toOption.map
        (fun c => c.location.length) = some 101 ∧
    ¬ (101 ≤ 100) := by
  refine ⟨by decide, by decide, by decide⟩

/-- C9 amended: the metadata fields (`title`, `description`, `location`,
`metrics`, `media_uris`) are set at creation to exactly the supplied
arguments — only `title` and `description` are length-validated — and no
later operation (`donate`, the `cancel` handler body, `claim_refund`)
mutates any of them. -/
theorem C9_metadata_immutable :
    (∀ (a : Nat) (t d : String) (tgt : Nat) (loc : String)
       (ms mus : List String) (cat : CampaignCategory) (now : Int)
       (c : Campaign),
       create_campaign a t d tgt loc ms mus cat now = .ok c →
         c.title = t ∧ c.description = d ∧ c.location = loc ∧
         c.metrics = ms ∧ c.media_uris = mus ∧
         0 < c.title.length ∧ c.title.length ≤ 50 ∧
         0 < c.description.length ∧ c.description.length ≤ 500) ∧
    (∀ (c : Campaign) (now : Int) (a : Nat) (c1 : Campaign),
       donate_to_campaign c now a = .ok c1 → c1.metadata = c.metadata) ∧
    (∀ (c : Campaign) (now : Int) (c1 : Campaign),
       cancel_campaign_body c now = .ok c1 → c1.metadata = c.metadata) ∧
    (∀ (c : Campaign) (r : DonationReceipt) (d : Nat) (c1 : Campaign)
       (amt : Nat),
       claim_refund c r d = .ok (c1, amt) → c1.metadata = c.metadata) := by
  refine ⟨?_, ?_, ?_, ?_⟩
  · intro a t d tgt loc ms mus cat now c hc
    obtain ⟨-, ht, hd, hce⟩ :=
      (create_ok_iff a t d tgt loc ms mus cat now c).mp hc
    subst hce
    exact ⟨rfl, rfl, rfl, rfl, rfl, ht.1, ht.2, hd.1, hd.2⟩
  · intro c now a c1 hc
    obtain ⟨-, -, -, -, hce⟩ := (donate_ok_iff c now a c1).mp hc
    subst hce
    split_ifs <;> rfl
  · intro c now c1 hc
    obtain ⟨-, hce⟩ := (cancel_body_ok_iff c now c1).mp hc
    subst hce
    split_ifs <;> rfl
  · intro c r d c1 amt hc
    obtain ⟨-, -, -, hce, -⟩ := (claim_refund_ok_iff c r d c1 amt).mp hc
    subst hce
    rfl

theorem C9_metadata_immutable_witness :
    (create_campaign AUTHORITY "t" "d" 1 "loc" ["m"] ["u"] .Other 0 =
       .ok C9created ∧
     (C9created.title = "t" ∧ C9created.description = "d" ∧
      C9created.location = "loc" ∧ C9created.metrics = ["m"] ∧
      C9created.media_uris = ["u"] ∧
      0 < C9created.title.length ∧ C9created.title.length ≤ 50 ∧
      0 < C9created.description.length ∧
      C9created.description.length ≤ 500)) ∧
    (donate_to_campaign sampleActive 5 800 = .ok sampleJustFunded ∧
     sampleJustFunded.metadata = sampleActive.metadata) ∧
    (cancel_campaign_body sampleActive 50 = .ok sampleCancelled ∧
     sampleCancelled.metadata = sampleActive.metadata) ∧
    (claim_refund sampleCancelled C4receipt 7 = .ok (sampleRefunded, 200) ∧
     sampleRefunded.metadata = sampleCancelled.metadata) :=
  ⟨⟨by decide,
    C9_metadata_immutable.1 AUTHORITY "t" "d" 1 "loc" ["m"] ["u"] .Other 0
      C9created (by decide)⟩,
   ⟨by decide,
    C9_metadata_immutable.2.1 sampleActive 5 800 sampleJustFunded
      (by decide)⟩,
   ⟨by decide,
    C9_metadata_immutable.2.2.1 sampleActive 50 sampleCancelled (by decide)⟩,
   ⟨by decide,
    C9_metadata_immutable.2.2.2 sampleCancelled C4receipt 7 sampleRefunded
      200 (by decide)⟩⟩

end Veesr
